import Mathlib

/-!
# Verification of the commit-message RAG pipeline

A shallow embedding, in Lean 4, of the algorithmic core of the repository:

* `GitHubCommitsRAG` (`rag_system.py`): TF-IDF retrieval over a corpus of
  commit records — `retrieve`, `train`, `save_model`, `load_model`;
* `CommitMessageGenerator` (`commit_generator.py` / `backend/commit_generator.py`):
  `analyze_changes` and `generate_commit_message`.

Python strings are modelled as Lean `String`; the Python operations used by
the source (`split`, `startswith`, `in`, `replace`, `strip`, slicing,
`join`) are given executable models below, operating on the underlying
character lists so that every concrete evaluation reduces.

External collaborators are modelled at their interfaces, exactly as the code
consumes them:

* sklearn's `TfidfVectorizer.transform` is the function stored in the
  `vectorizer` field (`String → List ℚ`); `fit_transform` is a parameter of
  `train`.  sklearn's `TfidfVectorizer` L2-normalises its output rows
  (`norm='l2'` is the default used by the source), and the cosine similarity
  of unit vectors is their dot product, so `cosine_similarity` is embedded
  as the dot product of the transformed query with each embedding row.
  Similarity scores are exact rationals in place of floats.
* `np.argsort` is embedded as a deterministic stable ascending argsort
  (numpy's sort is insertion sort — hence stable — on the small windows it
  is given here; stability is the standard deterministic model).
* the pickle file written by `save_model` and read by `load_model` is
  modelled as the value it serialises (pickling round-trips the data);
* `git diff --cached` / `git diff` outputs and the Groq chat-completion
  call are fields of a `GenEnv` environment record; an LLM failure of any
  kind is an `Except.error` result of the call.
-/

/-! ## Python string primitives -/

/-- One `foldr` step of `str.split('\n')`: a newline starts a new (empty)
leading chunk, any other character is prepended to the current chunk. -/
def splitLinesStep (c : Char) (acc : List (List Char)) : List (List Char) :=
  if c = '\n' then [] :: acc
  else
    match acc with
    | a :: as => (c :: a) :: as
    | [] => [[c]]

/-- Python `s.split('\n')`: splits on every newline; `"".split('\n') = [""]`,
and a trailing newline yields a trailing empty string. -/
def pyLines (s : String) : List String :=
  (s.data.foldr splitLinesStep [[]]).map String.mk

/-- Python `s.startswith(pre)`. -/
def pyStartsWith (s pre : String) : Bool :=
  pre.data.isPrefixOf s.data

/-- Decision procedure: `hasSubList pat l` decides whether `pat` occurs as a contiguous sublist
of `l` (Python's `pat in l` on strings). -/
def hasSubList (pat : List Char) : List Char → Bool
  | [] => pat.isEmpty
  | c :: rest => pat.isPrefixOf (c :: rest) || hasSubList pat rest

/-- Python `pat in s` (substring containment). -/
def pyIn (pat s : String) : Bool :=
  hasSubList pat.data s.data

/-- Fuel-driven model of Python `str.replace`: scans left to right,
replacing each non-overlapping occurrence of `pat` by `rep`.  The fuel is
instantiated with the length of the scanned list, which suffices because
each step consumes at least one character when `pat` is non-empty. -/
def replaceList (pat rep : List Char) : ℕ → List Char → List Char
  | 0, l => l
  | _ + 1, [] => []
  | fuel + 1, c :: rest =>
    if pat.isPrefixOf (c :: rest) && !pat.isEmpty then
      rep ++ replaceList pat rep fuel (List.drop (pat.length - 1) rest)
    else
      c :: replaceList pat rep fuel rest

/-- Python `s.replace(pat, rep)` (all non-overlapping occurrences, left to
right). -/
def pyReplace (s pat rep : String) : String :=
  String.mk (replaceList pat.data rep.data s.data.length s.data)

/-- Python `s.strip()`: removes leading and trailing whitespace. -/
def pyStrip (s : String) : String :=
  String.mk (((s.data.dropWhile Char.isWhitespace).reverse.dropWhile Char.isWhitespace).reverse)

/-- Python `s[:n]` for `n ≥ 0`: the first `n` characters. -/
def pyTake (s : String) (n : ℕ) : String :=
  String.mk (s.data.take n)

/-- Python `sep.join(parts)`. -/
def joinWith (sep : String) : List String → String
  | [] => ""
  | x :: xs => xs.foldl (fun acc y => acc ++ sep ++ y) x

/-! ## Diff analyzer (`CommitMessageGenerator.analyze_changes`)

Identical in `commit_generator.py` (lines 79–103) and
`backend/commit_generator.py` (lines 122–154). -/

/-- The analysis dict built by `analyze_changes`. -/
structure Analysis where
  files_changed : List String
  additions : ℕ
  deletions : ℕ
  key_changes : List String
deriving Repr, DecidableEq

/-- Processing of a single diff line inside the `for line in lines` loop of
`analyze_changes`. -/
def analyzeStep (a : Analysis) (line : String) : Analysis :=
  if pyStartsWith line "+++" then
    let file_name := pyStrip (pyReplace line "+++ b/" "")
    if file_name != "" && file_name != "/dev/null" then
      { a with files_changed := a.files_changed ++ [file_name] }
    else a
  else if pyStartsWith line "+" && !pyStartsWith line "+++" then
    let a := { a with additions := a.additions + 1 }
    if pyIn "def " line || pyIn "class " line || pyIn "function " line then
      { a with key_changes := a.key_changes ++ [pyStrip line] }
    else a
  else if pyStartsWith line "-" && !pyStartsWith line "---" then
    { a with deletions := a.deletions + 1 }
  else a

/-- Embedding of `CommitMessageGenerator.analyze_changes`: split the diff on newlines and
fold the per-line step over an all-empty initial analysis. -/
def analyze_changes (diff_text : String) : Analysis :=
  (pyLines diff_text).foldl analyzeStep ⟨[], 0, 0, []⟩

/-- The contribution of one diff line to `files_changed`: `some f` when the
line starts with `+++` and the cleaned name `f` (all occurrences of
`+++ b/` removed, then stripped) is neither empty nor `/dev/null`. -/
def extractFile (line : String) : Option String :=
  if pyStartsWith line "+++" then
    let file_name := pyStrip (pyReplace line "+++ b/" "")
    if file_name != "" && file_name != "/dev/null" then some file_name
    else none
  else none

/-! ## Similarity index (`GitHubCommitsRAG`, `rag_system.py`) -/

/-- One row of the commit CSV, as used by `load_data` and `retrieve`. -/
structure CommitRecord where
  commit_sha : String
  author_name : String
  author_date : String
  message : String
  repo_name : String
  url : String
deriving Repr, DecidableEq, Inhabited

/-- The `combined_text` column added by `load_data`:
`message + " " + author_name + " " + repo_name`. -/
def combinedText (r : CommitRecord) : String :=
  r.message ++ " " ++ r.author_name ++ " " ++ r.repo_name

/-- One entry of the result list built by `retrieve`. -/
structure RetrievedCommit where
  similarity : ℚ
  commit_sha : String
  author : String
  date : String
  message : String
  repo : String
  url : String
deriving Repr, DecidableEq, Inhabited

/-- The mutable state of a `GitHubCommitsRAG` instance.  The fitted
`TfidfVectorizer` is its `transform` function (`String → List ℚ`), the
embedding matrix is a list of rows aligned with `df`. -/
structure RAG where
  csv_path : String
  df : Option (List CommitRecord)
  vectorizer : Option (String → List ℚ)
  embeddings : Option (List (List ℚ))

/-- The two `ValueError`s raised by `rag_system.py`: "Model not trained"
(in `retrieve`) and "Dataframe is not loaded" (in `train`). -/
inductive PyError where
  | notTrainedError
  | dataframeNotLoaded
deriving Repr, DecidableEq

/-- Dot product; equals the cosine similarity of the L2-normalised vectors
produced by sklearn's `TfidfVectorizer` (see the module docstring). -/
def dotp (q r : List ℚ) : ℚ := (List.zipWith (· * ·) q r).sum

/-- Embedding of `cosine_similarity(query_embedding, self.embeddings).flatten()`:
one similarity per embedding row, in row order. -/
def simsOf (v : String → List ℚ) (E : List (List ℚ)) (query : String) : List ℚ :=
  E.map (fun r => dotp (v query) r)

/-- Insert index `i` into an (ascending) list of indices, after every index
whose similarity is not greater than `i`'s — one step of the stable
ascending argsort modelling `np.argsort`. -/
def insertIdx (s : List ℚ) (i : ℕ) : List ℕ → List ℕ
  | [] => [i]
  | j :: js => if s.getD i 0 < s.getD j 0 then i :: j :: js else j :: insertIdx s i js

/-- Stable ascending argsort of the first `m` indices. -/
def argsortGo (s : List ℚ) : ℕ → List ℕ
  | 0 => []
  | m + 1 => insertIdx s m (argsortGo s m)

/-- Model of `np.argsort(s)` as a deterministic stable ascending argsort: ties keep
their index order. -/
def argsort (s : List ℚ) : List ℕ := argsortGo s s.length

/-- Python slice `l[start:]` with a possibly negative `start`: a negative
start counts from the end, clamped at 0; a non-negative start drops that
many elements.  (`l[-k:]` is `pySliceFrom (-k) l`.) -/
def pySliceFrom (start : ℤ) (l : List α) : List α :=
  if start < 0 then l.drop ((l.length : ℤ) + start).toNat
  else l.drop start.toNat

/-- The window `np.argsort(similarities)[-top_k:][::-1]` from `retrieve`. -/
def topIndices (s : List ℚ) (top_k : ℤ) : List ℕ :=
  (pySliceFrom (-top_k) (argsort s)).reverse

/-- The result dict appended for index `idx` inside `retrieve`'s loop
(`self.df.iloc[idx][...]`, `float(similarities[idx])`). -/
def mkEntry (s : List ℚ) (corpus : List CommitRecord) (idx : ℕ) : RetrievedCommit :=
  let r := corpus.getD idx default
  ⟨s.getD idx 0, r.commit_sha, r.author_name, r.author_date, r.message, r.repo_name, r.url⟩

/-- Embedding of `GitHubCommitsRAG.retrieve`: raises `ValueError("Model not trained…")`
when the vectorizer or the embeddings are unset, otherwise ranks every
corpus row by cosine similarity to the transformed query and returns the
`top_k` window as result dicts. -/
def retrieve (rag : RAG) (query : String) (top_k : ℤ) : Except PyError (List RetrievedCommit) :=
  match rag.vectorizer, rag.embeddings with
  | some v, some E =>
    let similarities := simsOf v E query
    let corpus := rag.df.getD []
    Except.ok ((topIndices similarities top_k).map (mkEntry similarities corpus))
  | _, _ => Except.error PyError.notTrainedError

/-- Embedding of `GitHubCommitsRAG.train`: requires a loaded dataframe and stores the
fitted vectorizer and the embedding matrix produced by sklearn's
`fit_transform` (passed in as the external collaborator `fit`) on the
corpus's `combined_text` column. -/
def train (rag : RAG)
    (fit : List String → (String → List ℚ) × List (List ℚ)) : Except PyError RAG :=
  match rag.df with
  | none => Except.error PyError.dataframeNotLoaded
  | some corpus =>
    let fitted := fit (corpus.map combinedText)
    Except.ok { rag with vectorizer := some fitted.1, embeddings := some fitted.2 }

/-- The pickled dict `{"vectorizer": …, "embeddings": …, "df": …}` written
by `save_model`; the file is modelled as the value it serialises. -/
structure SavedModel where
  vectorizer : Option (String → List ℚ)
  embeddings : Option (List (List ℚ))
  df : Option (List CommitRecord)

/-- Embedding of `GitHubCommitsRAG.save_model`: bundles the three fields. -/
def save_model (rag : RAG) : SavedModel :=
  ⟨rag.vectorizer, rag.embeddings, rag.df⟩

/-- Embedding of `GitHubCommitsRAG.load_model`: overwrites the three fields with the
artifact's contents. -/
def load_model (rag : RAG) (m : SavedModel) : RAG :=
  { rag with vectorizer := m.vectorizer, embeddings := m.embeddings, df := m.df }

/-! ## Generation orchestrator (`CommitMessageGenerator.generate_commit_message`)

Embedded from `commit_generator.py` (lines 110–190); the control flow of
`backend/commit_generator.py` (lines 194–245) is identical, with the two
prompt texts sourced from Jinja templates instead of inline literals. -/

/-- The external collaborators of `generate_commit_message`: the staged and
unstaged diffs `get_git_diff` would return, and the Groq chat-completion
call (`system message → user message → completion text or failure`). -/
structure GenEnv where
  stagedDiff : String
  unstagedDiff : String
  llm : String → String → Except String String

/-- The dict returned by `generate_commit_message`: either
`{"commit_message": …, "analysis": …, "similar_commits": …}` or
`{"error": …}`. -/
inductive GenResult where
  | ok (commit_message : String) (analysis : Analysis) (similar_commits : List RetrievedCommit)
  | err (msg : String)
deriving DecidableEq

/-- Python `', '.join(analysis['files_changed'][:5])`. -/
def changedFilesStr (a : Analysis) : String :=
  joinWith ", " (a.files_changed.take 5)

/-- Python `f"{changed_files} {' '.join(analysis['key_changes'][:3])}"` — the
query string sent to the RAG index. -/
def diffSummary (a : Analysis) : String :=
  changedFilesStr a ++ " " ++ joinWith " " (a.key_changes.take 3)

/-- Python `"\n".join(f"- {commit['message']}" for commit in similar_commits)`. -/
def ragContext (similar : List RetrievedCommit) : String :=
  joinWith "\n" (similar.map (fun c => "- " ++ c.message))

/-- Python `diff_text[:2000] + "..." if len(diff_text) > 2000 else diff_text`. -/
def diffPreview (diff_text : String) : String :=
  if 2000 < diff_text.data.length then pyTake diff_text 2000 ++ "..." else diff_text

/-- The system message of the Groq call. -/
def systemPromptText : String :=
  "You are a git commit message expert. Generate clear, professional commit messages."

/-- The user-message f-string of `generate_commit_message`. -/
def buildUserPrompt (diff_text : String) (a : Analysis)
    (similar : List RetrievedCommit) (custom_context : String) : String :=
  "You are an expert at writing clear, concise git commit messages following conventional commit standards.\n\nBased on the following git diff and similar commit examples, generate a professional commit message.\n\nFILES CHANGED: "
    ++ changedFilesStr a
    ++ "\nADDITIONS: " ++ toString a.additions
    ++ " lines\nDELETIONS: " ++ toString a.deletions
    ++ " lines\n\nSIMILAR COMMIT MESSAGES FROM THIS PROJECT:\n" ++ ragContext similar
    ++ "\n\nGIT DIFF:\n" ++ diffPreview diff_text
    ++ "\n\n" ++ custom_context
    ++ "\n\nGenerate a commit message that:\n1. Starts with a type (feat/fix/docs/style/refactor/test/chore)\n2. Has a clear, concise subject line (50 chars max)\n3. Optionally includes a body explaining the changes\n4. Follows the style of similar commits from this project\n\nReturn ONLY the commit message, nothing else."

/-- The tail of `generate_commit_message` once a diff text is in hand:
analysis, retrieval (whose `ValueError` propagates uncaught), prompt
assembly, and the guarded LLM call whose failure is converted to an
`{"error": …}` dict. -/
def generateWith (env : GenEnv) (rag : RAG) (diff_text custom_context : String) :
    Except PyError GenResult :=
  let analysis := analyze_changes diff_text
  match retrieve rag (diffSummary analysis) 3 with
  | Except.error e => Except.error e
  | Except.ok similar_commits =>
    match env.llm systemPromptText (buildUserPrompt diff_text analysis similar_commits custom_context) with
    | Except.ok content =>
      Except.ok (GenResult.ok (pyStrip content) analysis similar_commits)
    | Except.error e =>
      Except.ok (GenResult.err ("Error calling Groq API: " ++ e))

/-- Embedding of `CommitMessageGenerator.generate_commit_message`: when no diff is
supplied, reads the staged diff and returns an error dict if it is empty or
an error string from `get_git_diff`; otherwise runs the pipeline. -/
def generate_commit_message (env : GenEnv) (rag : RAG)
    (diff_text : Option String) (custom_context : String) : Except PyError GenResult :=
  match diff_text with
  | some d => generateWith env rag d custom_context
  | none =>
    let d := env.stagedDiff
    if d == "" || pyStartsWith d "Error" || pyStartsWith d "Git not found" then
      Except.ok (GenResult.err (if d == "" then "No staged changes found" else d))
    else generateWith env rag d custom_context

/-! ## The trained-state predicate and concrete fixtures -/

/-- A `GitHubCommitsRAG` state that passes `retrieve`'s trained check:
both the vectorizer and the embeddings are set. -/
def Trained (rag : RAG) : Prop :=
  rag.vectorizer.isSome = true ∧ rag.embeddings.isSome = true

instance (rag : RAG) : Decidable (Trained rag) :=
  inferInstanceAs (Decidable (rag.vectorizer.isSome = true ∧ rag.embeddings.isSome = true))

/-- Fixture record 0. -/
def ceRec0 : CommitRecord :=
  ⟨"sha0", "alice", "2024-01-01", "fix login bug", "repoA", "u0"⟩

/-- Fixture record 1. -/
def ceRec1 : CommitRecord :=
  ⟨"sha1", "bob", "2024-01-02", "fix login crash", "repoB", "u1"⟩

/-- A trained two-record index in which both corpus rows have the same
similarity to every query (constant unit vectorizer, identical rows). -/
def ragTie : RAG :=
  { csv_path := "github_commits_api.csv"
    df := some [ceRec0, ceRec1]
    vectorizer := some (fun _ => [1])
    embeddings := some [[1], [1]] }

/-- The result entry `retrieve` builds for `ceRec0` at similarity 1. -/
def tieEntry0 : RetrievedCommit :=
  ⟨1, "sha0", "alice", "2024-01-01", "fix login bug", "repoA", "u0"⟩

/-- The result entry `retrieve` builds for `ceRec1` at similarity 1. -/
def tieEntry1 : RetrievedCommit :=
  ⟨1, "sha1", "bob", "2024-01-02", "fix login crash", "repoB", "u1"⟩

/-- A trained one-record index. -/
def ragOne : RAG :=
  { csv_path := "github_commits_api.csv"
    df := some [ceRec0]
    vectorizer := some (fun _ => [1])
    embeddings := some [[1]] }

/-- A freshly constructed instance: dataframe loaded, never trained. -/
def ragFresh : RAG :=
  { csv_path := "github_commits_api.csv"
    df := some [ceRec0]
    vectorizer := none
    embeddings := none }

/-- Orchestrator environment with an empty staged diff, a non-empty
unstaged diff, and an LLM that always succeeds. -/
def envStagedEmpty : GenEnv :=
  ⟨"", "+x\n", fun _ _ => Except.ok "feat: add x"⟩

/-- Orchestrator environment whose LLM call always fails with "boom". -/
def envLLMFail : GenEnv :=
  ⟨"+x\n", "", fun _ _ => Except.error "boom"⟩

/-- Orchestrator environment whose LLM call always returns a padded
message. -/
def envLLMOk : GenEnv :=
  ⟨"", "", fun _ _ => Except.ok "  feat: handle empty diff  "⟩

/-! ## Lemmas about the stable argsort and the slice window -/

/-- The strict lexicographic key ordering realised by the stable ascending
argsort: smaller similarity first, ties by smaller index first. -/
def keyR (s : List ℚ) (a b : ℕ) : Prop :=
  s.getD a 0 < s.getD b 0 ∨ (s.getD a 0 = s.getD b 0 ∧ a < b)

theorem keyR_le {s : List ℚ} {a b : ℕ} (h : keyR s a b) : s.getD a 0 ≤ s.getD b 0 := by
  rcases h with h | ⟨h, _⟩
  · exact le_of_lt h
  · exact le_of_eq h

theorem mem_insertIdx {s : List ℚ} {i x : ℕ} :
    ∀ {l : List ℕ}, x ∈ insertIdx s i l ↔ x = i ∨ x ∈ l
  | [] => by simp [insertIdx]
  | j :: js => by
    simp only [insertIdx]
    split
    · simp [List.mem_cons]
    · simp only [List.mem_cons, mem_insertIdx (l := js)]
      tauto

theorem pairwise_insertIdx {s : List ℚ} {i : ℕ} :
    ∀ {l : List ℕ}, (∀ x ∈ l, x < i) → List.Pairwise (keyR s) l →
      List.Pairwise (keyR s) (insertIdx s i l)
  | [], _, _ => by simp [insertIdx]
  | j :: js, hlt, hp => by
    rcases List.pairwise_cons.1 hp with ⟨hj, hjs⟩
    simp only [insertIdx]
    split
    · rename_i hij
      refine List.pairwise_cons.2 ⟨?_, hp⟩
      intro x hx
      rcases List.mem_cons.1 hx with rfl | hx
      · exact Or.inl hij
      · exact Or.inl (lt_of_lt_of_le hij (keyR_le (hj x hx)))
    · rename_i hij
      refine List.pairwise_cons.2 ⟨?_, ?_⟩
      · intro x hx
        rcases mem_insertIdx.1 hx with rfl | hx
        · rcases lt_or_eq_of_le (le_of_not_lt hij) with h | h
          · exact Or.inl h
          · exact Or.inr ⟨h, hlt j (List.mem_cons_self j js)⟩
        · exact hj x hx
      · exact pairwise_insertIdx (fun x hx => hlt x (List.mem_cons_of_mem j hx)) hjs

theorem argsortGo_spec (s : List ℚ) :
    ∀ m, (∀ x ∈ argsortGo s m, x < m) ∧ List.Pairwise (keyR s) (argsortGo s m)
  | 0 => by simp [argsortGo]
  | m + 1 => by
    obtain ⟨hb, hp⟩ := argsortGo_spec s m
    refine ⟨?_, ?_⟩
    · intro x hx
      rcases mem_insertIdx.1 (by simpa [argsortGo] using hx) with rfl | hx
      · omega
      · exact lt_trans (hb x hx) (Nat.lt_succ_self m)
    · exact pairwise_insertIdx hb hp

/-- The stable argsort is strictly sorted by the (similarity, index)
lexicographic key. -/
theorem argsort_pairwise (s : List ℚ) : List.Pairwise (keyR s) (argsort s) :=
  (argsortGo_spec s s.length).2

theorem insertIdx_perm (s : List ℚ) (i : ℕ) :
    ∀ l : List ℕ, (insertIdx s i l).Perm (i :: l)
  | [] => by simp [insertIdx]
  | j :: js => by
    simp only [insertIdx]
    split
    · exact List.Perm.refl _
    · exact (List.Perm.cons j (insertIdx_perm s i js)).trans (List.Perm.swap i j js)

theorem argsortGo_perm (s : List ℚ) :
    ∀ m, (argsortGo s m).Perm (List.range m)
  | 0 => by simp [argsortGo]
  | m + 1 => by
    rw [List.range_succ]
    exact ((insertIdx_perm s m (argsortGo s m)).trans
      (List.Perm.cons m (argsortGo_perm s m))).trans
      (List.perm_append_singleton m (List.range m)).symm

/-- The argsort permutes the index range of the similarity list. -/
theorem argsort_perm (s : List ℚ) : (argsort s).Perm (List.range s.length) :=
  argsortGo_perm s s.length

theorem argsort_length (s : List ℚ) : (argsort s).length = s.length :=
  (argsort_perm s).length_eq.trans (List.length_range _)

/-- The returned window is strictly sorted by the reversed key: larger
similarity first, and among equal similarities the larger index first. -/
theorem topIndices_pairwise (s : List ℚ) (k : ℤ) :
    List.Pairwise (fun a b => keyR s b a) (topIndices s k) := by
  have hs : List.Pairwise (keyR s) (pySliceFrom (-k) (argsort s)) := by
    unfold pySliceFrom
    split
    · exact List.Pairwise.sublist (List.drop_sublist _ _) (argsort_pairwise s)
    · exact List.Pairwise.sublist (List.drop_sublist _ _) (argsort_pairwise s)
  exact List.pairwise_reverse.2 hs

/-- For a positive `top_k`, the window is the first `min top_k n` entries of
the descending ranking. -/
theorem topIndices_pos (s : List ℚ) (k : ℤ) (hk : 1 ≤ k) :
    topIndices s k = (argsort s).reverse.take (min k.toNat s.length) := by
  unfold topIndices pySliceFrom
  rw [if_pos (by omega : -k < 0), List.reverse_drop]
  congr 1
  rw [argsort_length]
  omega

/-- For `top_k ≤ 0`, the slice `[-top_k:]` keeps all but the `|top_k|`
lowest-ranked rows. -/
theorem topIndices_length_nonpos (s : List ℚ) (k : ℤ) (hk : k ≤ 0) :
    (topIndices s k).length = s.length - (-k).toNat := by
  unfold topIndices pySliceFrom
  rw [if_neg (by omega : ¬ -k < 0), List.length_reverse, List.length_drop, argsort_length]

/-- For `top_k` larger than the corpus, the window is a permutation of all
indices. -/
theorem topIndices_all (s : List ℚ) (k : ℤ) (hk : (s.length : ℤ) < k) :
    (topIndices s k).Perm (List.range s.length) := by
  unfold topIndices pySliceFrom
  rw [if_pos (by omega : -k < 0),
    (by omega : ((argsort s).length : ℤ) + -k = ((argsort s).length : ℤ) - k),
    show (((argsort s).length : ℤ) - k).toNat = 0 by rw [argsort_length]; omega,
    List.drop_zero]
  exact (List.reverse_perm _).trans (argsort_perm s)

/-! ## Lemmas about `retrieve` -/

theorem simsOf_length (v : String → List ℚ) (E : List (List ℚ)) (q : String) :
    (simsOf v E q).length = E.length := by
  simp [simsOf]

theorem retrieve_eq (rag : RAG) (q : String) (k : ℤ) (v : String → List ℚ)
    (E : List (List ℚ)) (hv : rag.vectorizer = some v) (hE : rag.embeddings = some E) :
    retrieve rag q k =
      Except.ok ((topIndices (simsOf v E q) k).map
        (mkEntry (simsOf v E q) (rag.df.getD []))) := by
  unfold retrieve
  rw [hv, hE]

theorem simsTie (q : String) : simsOf (fun _ => [1]) [[1], [1]] q = [1, 1] := by
  norm_num [simsOf, dotp]

theorem topIndicesTie2 : topIndices [(1 : ℚ), 1] 2 = [1, 0] := by
  norm_num [topIndices, argsort, argsortGo, insertIdx, pySliceFrom]

theorem retrTie1 : retrieve ragTie " " 1 = Except.ok [tieEntry1] := by
  norm_num [retrieve, ragTie, simsOf, dotp, topIndices, argsort, argsortGo, insertIdx,
    pySliceFrom, mkEntry, ceRec0, ceRec1, tieEntry1]

theorem retrTie2 : retrieve ragTie " " 2 = Except.ok [tieEntry1, tieEntry0] := by
  norm_num [retrieve, ragTie, simsOf, dotp, topIndices, argsort, argsortGo, insertIdx,
    pySliceFrom, mkEntry, ceRec0, ceRec1, tieEntry0, tieEntry1]

theorem retrTie3 : retrieve ragTie " " 3 = Except.ok [tieEntry1, tieEntry0] := by
  norm_num [retrieve, ragTie, simsOf, dotp, topIndices, argsort, argsortGo, insertIdx,
    pySliceFrom, mkEntry, ceRec0, ceRec1, tieEntry0, tieEntry1,
    (show ((-1 : ℤ)).toNat = 0 from rfl)]

theorem retrOne0 : retrieve ragOne " " 0 = Except.ok [tieEntry0] := by
  norm_num [retrieve, ragOne, simsOf, dotp, topIndices, argsort, argsortGo, insertIdx,
    pySliceFrom, mkEntry, ceRec0, tieEntry0]

/-! ## Claim C2 — tie-breaking order of `retrieve` -/

/-- C2, counterexample.  The spec claims that among records with exactly
equal cosine similarity the lower corpus index is returned first.  On the
two-record fixture `ragTie`, both rows have similarity 1 to the query, yet
`retrieve` returns the row of corpus index 1 (`ceRec1`) before the row of
corpus index 0 (`ceRec0`): `np.argsort` leaves ties in ascending index
order and the trailing `[::-1]` reverses them. -/
theorem retrieve_tie_counterexample :
    (simsOf (fun _ => [1]) [[1], [1]] " ").getD 0 0 =
      (simsOf (fun _ => [1]) [[1], [1]] " ").getD 1 0 ∧
    retrieve ragTie " " 2 = Except.ok [tieEntry1, tieEntry0] ∧
    tieEntry1.commit_sha = "sha1" ∧ tieEntry0.commit_sha = "sha0" := by
  exact ⟨by rw [simsTie]; rfl, retrTie2, rfl, rfl⟩

/-- C2 (amended): when two corpus records have exactly equal similarity to
the query and both appear in the returned window, the record with the
HIGHER corpus index appears strictly before the record with the lower
corpus index in the result of `retrieve` (descending index on ties — the
reverse of the claimed order). -/
theorem retrieve_ties_descending (rag : RAG) (q : String) (k : ℤ)
    (v : String → List ℚ) (E : List (List ℚ)) (corpus : List CommitRecord)
    (l : List RetrievedCommit) (i j : ℕ)
    (hv : rag.vectorizer = some v) (hE : rag.embeddings = some E)
    (hdf : rag.df = some corpus)
    (hok : retrieve rag q k = Except.ok l)
    (hij : i < j)
    (heq : (simsOf v E q).getD i 0 = (simsOf v E q).getD j 0)
    (hi : i ∈ topIndices (simsOf v E q) k)
    (hj : j ∈ topIndices (simsOf v E q) k) :
    ∃ p p2 : ℕ, p < p2 ∧
      l.get? p = some (mkEntry (simsOf v E q) corpus j) ∧
      l.get? p2 = some (mkEntry (simsOf v E q) corpus i) := by
  have hl : l = (topIndices (simsOf v E q) k).map (mkEntry (simsOf v E q) corpus) := by
    rw [retrieve_eq rag q k v E hv hE, hdf] at hok
    simpa using hok.symm
  obtain ⟨pi, hpi⟩ := List.get_of_mem hi
  obtain ⟨pj, hpj⟩ := List.get_of_mem hj
  have hpw := List.pairwise_iff_get.1 (topIndices_pairwise (simsOf v E q) k)
  have hne : pi ≠ pj := by
    intro h
    rw [h, hpj] at hpi
    omega
  rcases lt_trichotomy pi pj with hlt | heqp | hgt
  · exfalso
    have hk := hpw pi pj hlt
    rw [hpi, hpj] at hk
    rcases hk with hk | ⟨-, hk⟩
    · rw [heq] at hk
      exact lt_irrefl _ hk
    · omega
  · exact absurd heqp hne
  · refine ⟨(pj : ℕ), (pi : ℕ), hgt, ?_, ?_⟩
    · rw [hl, List.get?_map, List.get?_eq_get pj.isLt, hpj]
      rfl
    · rw [hl, List.get?_map, List.get?_eq_get pi.isLt, hpi]
      rfl

/-- C2 (amended), witness at the concrete fixture: indices 0 and 1 tie, and
the entry of index 1 precedes the entry of index 0. -/
theorem retrieve_ties_descending_witness :
    ∃ p p2 : ℕ, p < p2 ∧
      [tieEntry1, tieEntry0].get? p =
        some (mkEntry (simsOf (fun _ => [1]) [[1], [1]] " ") [ceRec0, ceRec1] 1) ∧
      [tieEntry1, tieEntry0].get? p2 =
        some (mkEntry (simsOf (fun _ => [1]) [[1], [1]] " ") [ceRec0, ceRec1] 0) :=
  retrieve_ties_descending ragTie " " 2 (fun _ => [1]) [[1], [1]] [ceRec0, ceRec1]
    [tieEntry1, tieEntry0] 0 1 rfl rfl rfl retrTie2 (by omega)
    (by rw [simsTie]; rfl)
    (by rw [simsTie, topIndicesTie2]; simp)
    (by rw [simsTie, topIndicesTie2]; simp)

/-! ## Claim C3 — out-of-range `top_k` -/

/-- C3, counterexample.  The spec claims `top_k ≤ 0` returns an empty
result; on the one-record fixture, `top_k = 0` returns the whole corpus,
because the Python slice `[-0:]` is `[0:]` and keeps every row. -/
theorem retrieve_topk_zero_counterexample :
    retrieve ragOne " " 0 = Except.ok [tieEntry0] ∧
    ([tieEntry0] : List RetrievedCommit) ≠ [] :=
  ⟨retrOne0, by simp⟩

/-- C3 (amended): `top_k` greater than the corpus size returns every corpus
row (confirmed half of the claim); `top_k ≤ 0` does NOT return an empty
result but all rows except the `|top_k|` lowest-ranked ones — in
particular `top_k = 0` returns the whole corpus. -/
theorem retrieve_topk_window (rag : RAG) (q : String) (k : ℤ)
    (v : String → List ℚ) (E : List (List ℚ)) (corpus : List CommitRecord)
    (hv : rag.vectorizer = some v) (hE : rag.embeddings = some E)
    (hdf : rag.df = some corpus) (hlen : E.length = corpus.length) :
    ((corpus.length : ℤ) < k →
      ∃ l, retrieve rag q k = Except.ok l ∧ l.length = corpus.length ∧
        ∀ i, i < corpus.length → mkEntry (simsOf v E q) corpus i ∈ l) ∧
    (k ≤ 0 →
      ∃ l, retrieve rag q k = Except.ok l ∧
        l.length = corpus.length - (-k).toNat) := by
  have hs : (simsOf v E q).length = corpus.length := by rw [simsOf_length, hlen]
  have hro := retrieve_eq rag q k v E hv hE
  rw [hdf] at hro
  simp only [Option.getD_some] at hro
  constructor
  · intro hk
    refine ⟨_, hro, ?_, ?_⟩
    · rw [List.length_map]
      exact ((topIndices_all _ k (by rw [hs]; exact hk)).length_eq).trans
        (by rw [List.length_range, hs])
    · intro i hi
      exact List.mem_map_of_mem _
        (((topIndices_all _ k (by rw [hs]; exact hk)).mem_iff).2
          (by rw [List.mem_range, hs]; exact hi))
  · intro hk
    refine ⟨_, hro, ?_⟩
    rw [List.length_map, topIndices_length_nonpos _ k hk, hs]

/-- C3 (amended), witness: on the one-record fixture, `top_k = 3 > 1`
returns the full corpus and `top_k = 0` returns `1 - 0 = 1` rows. -/
theorem retrieve_topk_window_witness :
    (∃ l, retrieve ragOne " " 3 = Except.ok l ∧ l.length = [ceRec0].length ∧
      ∀ i, i < [ceRec0].length →
        mkEntry (simsOf (fun _ => [1]) [[1]] " ") [ceRec0] i ∈ l) ∧
    (∃ l, retrieve ragOne " " 0 = Except.ok l ∧
      l.length = [ceRec0].length - (-(0 : ℤ)).toNat) :=
  ⟨(retrieve_topk_window ragOne " " 3 _ _ _ rfl rfl rfl rfl).1 (by decide),
   (retrieve_topk_window ragOne " " 0 _ _ _ rfl rfl rfl rfl).2 (by decide)⟩

/-! ## Claim C8 — top-k prefix monotonicity -/

/-- C8 (confirmed): for positive `k1 < k2`, the first `k1` entries of the
`k2`-result equal the whole `k1`-result — same records, same scores, same
order. -/
theorem retrieve_prefix_monotone (rag : RAG) (q : String) (k1 k2 : ℤ)
    (l1 l2 : List RetrievedCommit)
    (h1 : 0 < k1) (h12 : k1 < k2)
    (e1 : retrieve rag q k1 = Except.ok l1)
    (e2 : retrieve rag q k2 = Except.ok l2) :
    l2.take k1.toNat = l1 := by
  rcases hv : rag.vectorizer with _ | v <;> rcases hE : rag.embeddings with _ | E
  · simp [retrieve, hv, hE] at e1
  · simp [retrieve, hv, hE] at e1
  · simp [retrieve, hv, hE] at e1
  · rw [retrieve_eq rag q k1 v E hv hE] at e1
    rw [retrieve_eq rag q k2 v E hv hE] at e2
    have hl1 : (topIndices (simsOf v E q) k1).map
        (mkEntry (simsOf v E q) (rag.df.getD [])) = l1 := by simpa using e1
    have hl2 : (topIndices (simsOf v E q) k2).map
        (mkEntry (simsOf v E q) (rag.df.getD [])) = l2 := by simpa using e2
    rw [← hl1, ← hl2]
    rw [topIndices_pos _ k1 (by omega), topIndices_pos _ k2 (by omega),
      ← List.map_take, List.take_take]
    congr 2
    omega

/-- C8, witness: on the tie fixture, the first entry of the two-entry
result for `k2 = 2` equals the result for `k1 = 1`. -/
theorem retrieve_prefix_monotone_witness :
    List.take (Int.toNat 1) [tieEntry1, tieEntry0] = [tieEntry1] :=
  retrieve_prefix_monotone ragTie " " 1 2 [tieEntry1] [tieEntry1, tieEntry0]
    (by omega) (by omega) retrTie1 retrTie2

/-! ## Claim C6 — the trained check of `retrieve` -/

/-- C6, counterexample.  A trained instance that loads an artifact saved by
a fresh, never-trained instance has completed `load_model`, yet `retrieve`
still fails with the not-trained `ValueError`: the claim's "after
`load_model`, `retrieve` does not raise" is false. -/
theorem load_untrained_counterexample :
    retrieve (load_model ragTie (save_model ragFresh)) " " 1 =
      Except.error PyError.notTrainedError ∧
    Trained ragTie ∧ ¬ Trained ragFresh :=
  ⟨rfl, by decide, by decide⟩

/-- C6 (amended): `retrieve` fails with the not-trained error exactly when
the vectorizer or the embeddings are unset, and succeeds exactly otherwise;
a completed `train()` always leaves the instance trained, while
`load_model` leaves it trained if and only if the loaded artifact carries a
vectorizer and embeddings (i.e. was saved from a trained instance). -/
theorem retrieve_not_trained_iff (rag : RAG) (q : String) (k : ℤ) :
    (retrieve rag q k = Except.error PyError.notTrainedError ↔ ¬ Trained rag) ∧
    ((∃ l, retrieve rag q k = Except.ok l) ↔ Trained rag) ∧
    (∀ fit rag2, train rag fit = Except.ok rag2 → Trained rag2) ∧
    (∀ m : SavedModel, Trained (load_model rag m) ↔
      (m.vectorizer.isSome = true ∧ m.embeddings.isSome = true)) := by
  refine ⟨?_, ?_, ?_, ?_⟩
  · rcases hv : rag.vectorizer with _ | v <;> rcases hE : rag.embeddings with _ | E <;>
      simp [retrieve, Trained, hv, hE]
  · rcases hv : rag.vectorizer with _ | v <;> rcases hE : rag.embeddings with _ | E <;>
      simp [retrieve, Trained, hv, hE]
  · intro fit rag2 h
    rcases hdf : rag.df with _ | corpus
    · simp [train, hdf] at h
    · simp only [train, hdf] at h
      injection h with h2
      rw [← h2]
      simp [Trained]
  · intro m
    simp [Trained, load_model]

/-- C6 (amended), witness: the fresh instance fails the check, the trained
fixture passes it. -/
theorem retrieve_not_trained_iff_witness :
    retrieve ragFresh " " 1 = Except.error PyError.notTrainedError ∧
    (∃ l, retrieve ragTie " " 1 = Except.ok l) :=
  ⟨(retrieve_not_trained_iff ragFresh " " 1).1.mpr (by decide),
   (retrieve_not_trained_iff ragTie " " 1).2.1.mpr (by decide)⟩

/-! ## Claim C7 — persistence round-trip -/

/-- C7 (confirmed): restoring a saved trained index into any instance
yields identical `retrieve` results — same records, same similarity
scores, same order — for every query and every `top_k`.  `save_model`
bundles exactly the vectorizer, embeddings and dataframe, `load_model`
restores exactly those three fields, and `retrieve` reads nothing else. -/
theorem save_load_roundtrip (x : RAG) (_hx : Trained x) (y : RAG) (q : String) (k : ℤ) :
    retrieve (load_model y (save_model x)) q k = retrieve x q k := rfl

/-- C7, witness at the concrete trained fixture. -/
theorem save_load_roundtrip_witness :
    retrieve (load_model ragFresh (save_model ragTie)) " " 1 = retrieve ragTie " " 1 :=
  save_load_roundtrip ragTie (by decide) ragFresh " " 1

/-! ## Claim C1 — no unstaged fallback in the orchestrator -/

/-- C1, counterexample.  With an empty staged diff, a NON-empty unstaged
diff, and an LLM that always succeeds, `generate_commit_message` (called
without a diff argument) still returns the no-changes error dict: it never
acquires the unstaged diff.  The staged→unstaged fallback claimed by the
spec lives only in the API endpoint, not in the orchestrator. -/
theorem staged_empty_counterexample :
    generate_commit_message envStagedEmpty ragTie none "" =
      Except.ok (GenResult.err "No staged changes found") ∧
    envStagedEmpty.unstagedDiff = "+x\n" ∧ ("+x\n" : String) ≠ "" :=
  ⟨rfl, rfl, by decide⟩

/-- C1 (amended): with no caller-supplied diff, an empty staged diff makes
`generate_commit_message` return the structured "No staged changes found"
error immediately, and the outcome never depends on the unstaged diff. -/
theorem staged_empty_no_fallback (env : GenEnv) (rag : RAG) (ctx u : String) :
    (env.stagedDiff = "" →
      generate_commit_message env rag none ctx =
        Except.ok (GenResult.err "No staged changes found")) ∧
    generate_commit_message { env with unstagedDiff := u } rag none ctx =
      generate_commit_message env rag none ctx := by
  constructor
  · intro h
    simp [generate_commit_message, h]
  · cases env
    rfl

/-- C1 (amended), witness at the concrete environment. -/
theorem staged_empty_no_fallback_witness :
    generate_commit_message envStagedEmpty ragOne none "x" =
      Except.ok (GenResult.err "No staged changes found") ∧
    generate_commit_message { envStagedEmpty with unstagedDiff := "zzz" } ragOne none "x" =
      generate_commit_message envStagedEmpty ragOne none "x" :=
  ⟨(staged_empty_no_fallback envStagedEmpty ragOne "x" "zzz").1 rfl,
   (staged_empty_no_fallback envStagedEmpty ragOne "x" "zzz").2⟩

/-! ## Claim C5 — LLM failure is recovered into an error dict -/

/-- C5 (confirmed): whenever the external LLM call fails — with any
message `e` — `generate_commit_message` returns the single structured
error dict `{"error": "Error calling Groq API: " + e}`; the exception does
not escape, and the `err` result carries no commit message and no partial
fields. -/
theorem llm_failure_returns_error (env : GenEnv) (rag : RAG) (d ctx e : String)
    (sim : List RetrievedCommit)
    (hret : retrieve rag (diffSummary (analyze_changes d)) 3 = Except.ok sim)
    (hllm : env.llm systemPromptText
      (buildUserPrompt d (analyze_changes d) sim ctx) = Except.error e) :
    generate_commit_message env rag (some d) ctx =
      Except.ok (GenResult.err ("Error calling Groq API: " ++ e)) := by
  simp [generate_commit_message, generateWith, hret, hllm]

/-- C5, witness: the always-failing LLM environment yields exactly the
wrapped error dict. -/
theorem llm_failure_returns_error_witness :
    generate_commit_message envLLMFail ragTie (some "x") "" =
      Except.ok (GenResult.err ("Error calling Groq API: " ++ "boom")) :=
  llm_failure_returns_error envLLMFail ragTie "x" "" "boom" [tieEntry1, tieEntry0]
    retrTie3 rfl

/-! ## Claim C10 — the empty diff string runs the full pipeline -/

/-- C10 (confirmed): a caller-supplied EMPTY diff string is not treated as
"no changes": the analysis yields all-zero statistics, retrieval and the
LLM call still run, and a successful LLM call produces a commit-message
result (the stripped completion, the zero analysis, and the retrieved
commits). -/
theorem empty_diff_runs_pipeline (env : GenEnv) (rag : RAG) (ctx m : String)
    (sim : List RetrievedCommit)
    (hret : retrieve rag (diffSummary (analyze_changes "")) 3 = Except.ok sim)
    (hllm : env.llm systemPromptText
      (buildUserPrompt "" (analyze_changes "") sim ctx) = Except.ok m) :
    analyze_changes "" = ⟨[], 0, 0, []⟩ ∧
    generate_commit_message env rag (some "") ctx =
      Except.ok (GenResult.ok (pyStrip m) (analyze_changes "") sim) := by
  refine ⟨rfl, ?_⟩
  simp [generate_commit_message, generateWith, hret, hllm]

/-- C10, witness: the empty diff with an always-succeeding LLM returns the
stripped message together with the zero analysis and retrieved commits. -/
theorem empty_diff_runs_pipeline_witness :
    analyze_changes "" = ⟨[], 0, 0, []⟩ ∧
    generate_commit_message envLLMOk ragTie (some "") "" =
      Except.ok (GenResult.ok (pyStrip "  feat: handle empty diff  ")
        (analyze_changes "") [tieEntry1, tieEntry0]) :=
  empty_diff_runs_pipeline envLLMOk ragTie "" "  feat: handle empty diff  "
    [tieEntry1, tieEntry0] retrTie3 rfl

/-! ## Claim C9 — concrete analyzer scenario -/

/-- C9 (confirmed): the spec's concrete scenario.  The diff with one
`+++ b/app.py` header, two added lines (one introducing `def handler():`)
and one removed line yields exactly `files_changed = ["app.py"]`,
`additions = 2`, `deletions = 1`, `key_changes = ["+def handler():"]`
(the added line, stripped). -/
theorem analyze_concrete_scenario :
    analyze_changes "+++ b/app.py\n+def handler():\n+    pass\n-    return None\n" =
      ⟨["app.py"], 2, 1, ["+def handler():"]⟩ := rfl

/-! ## Claim C4 — which `+++` header lines are recorded -/

theorem analyzeStep_files (a : Analysis) (L : String) :
    (analyzeStep a L).files_changed = a.files_changed ++ (extractFile L).toList := by
  simp only [analyzeStep, extractFile]
  repeat' split
  all_goals simp [Option.toList]

theorem files_foldl (lines : List String) :
    ∀ a : Analysis, ((lines.foldl analyzeStep a).files_changed) =
      a.files_changed ++ lines.filterMap extractFile := by
  induction lines with
  | nil => intro a; simp
  | cons L rest ih =>
    intro a
    rw [List.foldl_cons, ih, List.filterMap_cons, analyzeStep_files]
    cases h : extractFile L <;> simp [h, Option.toList]

theorem analyze_files_eq (diff_text : String) :
    (analyze_changes diff_text).files_changed = (pyLines diff_text).filterMap extractFile := by
  rw [analyze_changes, files_foldl]
  rfl

theorem replaceList_no_occurrence (pat rep : List Char) :
    ∀ (l : List Char) (fuel : ℕ), hasSubList pat l = false → l.length ≤ fuel →
      replaceList pat rep fuel l = l := by
  intro l
  induction l with
  | nil => intro fuel _ _; cases fuel <;> rfl
  | cons c rest ih =>
    intro fuel hno hlen
    cases fuel with
    | zero => simp at hlen
    | succ f =>
      simp only [hasSubList, Bool.or_eq_false_iff] at hno
      obtain ⟨hp, hrest⟩ := hno
      simp only [replaceList, hp, Bool.false_and, Bool.false_eq_true, if_false]
      rw [ih f hrest (by simp at hlen; omega)]

theorem replaceList_hdr (p : List Char) (hno : hasSubList "+++ b/".data p = false) :
    replaceList "+++ b/".data [] (6 + p.length) ("+++ b/".data ++ p) = p := by
  have hshape : "+++ b/".data ++ p = '+' :: ('+' :: '+' :: ' ' :: 'b' :: '/' :: p) := rfl
  have hpre : ("+++ b/".data).isPrefixOf ('+' :: '+' :: '+' :: ' ' :: 'b' :: '/' :: p) = true :=
    List.isPrefixOf_iff_prefix.2 ⟨p, rfl⟩
  rw [hshape, show 6 + p.length = (5 + p.length) + 1 from by omega]
  simp only [replaceList, hpre, Bool.true_and, List.isEmpty_cons, Bool.not_false, if_true,
    List.nil_append]
  rw [show List.drop (['+', '+', '+', ' ', 'b', '/'].length - 1)
    ('+' :: '+' :: ' ' :: 'b' :: '/' :: p) = p from rfl]
  exact replaceList_no_occurrence _ _ p _ hno (by omega)

theorem pyReplace_header (p : String) (hno : pyIn "+++ b/" p = false) :
    pyReplace ("+++ b/" ++ p) "+++ b/" "" = p := by
  unfold pyReplace
  rw [String.data_append, List.length_append,
    show ("+++ b/".data).length = 6 from rfl,
    replaceList_hdr p.data (by simpa [pyIn] using hno)]

theorem pyStartsWith_header (p : String) : pyStartsWith ("+++ b/" ++ p) "+++" = true := by
  unfold pyStartsWith
  rw [String.data_append]
  exact List.isPrefixOf_iff_prefix.2 ⟨' ' :: 'b' :: '/' :: p.data, rfl⟩

/-- C4, counterexample.  Git marks a deleted file with the header line
`+++ /dev/null` (no `b/`).  Its target path is the null sentinel, yet
`analyze_changes` RECORDS it: `str.replace` only removes `+++ b/`, which
does not occur, so the cleaned name is the whole line `+++ /dev/null`,
which is non-empty and differs from `/dev/null`, and is appended verbatim
to `files_changed`. -/
theorem devnull_header_counterexample :
    analyze_changes "+++ /dev/null" = ⟨["+++ /dev/null"], 0, 0, []⟩ ∧
    pyReplace "+++ /dev/null" "+++ b/" "" = "+++ /dev/null" ∧
    ("+++ /dev/null" : String) ≠ "/dev/null" :=
  ⟨rfl, rfl, by decide⟩

/-- C4 (amended): `files_changed` collects, in order, exactly the `+++`
lines whose cleaned name — the line with every occurrence of `+++ b/`
removed, then stripped — is neither empty nor `/dev/null`, and it records
that cleaned name.  In particular a well-formed `+++ b/<path>` header whose
path contains no further `+++ b/` records the stripped `<path>`, while the
real deleted-file marker `+++ /dev/null` is NOT skipped but recorded as the
literal `+++ /dev/null` (only the never-occurring spelling `+++ b//dev/null`
would be skipped). -/
theorem files_changed_characterization :
    (∀ diff_text : String,
      (analyze_changes diff_text).files_changed = (pyLines diff_text).filterMap extractFile) ∧
    extractFile "+++ /dev/null" = some "+++ /dev/null" ∧
    (∀ p : String, pyIn "+++ b/" p = false → pyStrip p ≠ "" → pyStrip p ≠ "/dev/null" →
      extractFile ("+++ b/" ++ p) = some (pyStrip p)) := by
  refine ⟨analyze_files_eq, rfl, ?_⟩
  intro p hno h1 h2
  simp only [extractFile, pyStartsWith_header p, pyReplace_header p hno, if_true]
  simp [h1, h2]

/-- C4 (amended), witness: a well-formed header records its stripped path. -/
theorem files_changed_characterization_witness :
    extractFile ("+++ b/" ++ "app.py") = some (pyStrip "app.py") :=
  files_changed_characterization.2.2 "app.py" rfl (by decide) (by decide)
